import Mathlib

set_option maxRecDepth 100000

/-!
Verification of the message-classification and cause-inference engine of
friendly-traceback, shallowly embedded from the Python sources
(`message_analyzer.py`, `info_specific.py`, `runtime_errors/import_error.py`).

Python strings are modelled as `List Char`; Python exceptions raised by the
embedded code are modelled with an explicit result type `PyRes`; translation
(`current_lang.translate`) is the identity (English default), so templates are
embedded as plain text with `format` substitutions spelled out as concatenation.
-/

/-- Python strings, modelled as lists of characters. -/
abbrev PyStr := List Char

/-- Shorthand turning a Lean string literal into a `PyStr`. -/
def S (s : String) : PyStr := s.toList

/-- Exceptions that the embedded code can raise. -/
inductive PyErr where
  | indexError
  | attributeError
  | keyError
  | friendlyException (msg : PyStr)
deriving DecidableEq

/-- Result of running a piece of embedded Python code: a value, or a raised
exception propagating out. -/
inductive PyRes (α : Type) where
  | ok (val : α)
  | err (e : PyErr)
deriving DecidableEq

/-- Python truthiness of a string-or-None value: `None` and the empty string
are falsy, every other string is truthy. -/
def pyTruthy : Option PyStr → Bool
  | none => false
  | some [] => false
  | some (_ :: _) => true

/-- Embeds Python `str.strip()` (restricted to ASCII whitespace, which is all
the embedded call sites produce). -/
def pyStrip (l : PyStr) : PyStr :=
  ((l.dropWhile Char.isWhitespace).reverse.dropWhile Char.isWhitespace).reverse

/-- Embeds Python `str.split(sep)` for a one-character separator: all
occurrences split, empty parts kept. -/
def splitOnChar (sep : Char) : PyStr → List PyStr
  | [] => [[]]
  | c :: cs =>
    if c = sep then [] :: splitOnChar sep cs
    else
      match splitOnChar sep cs with
      | [] => [[c]]
      | p :: ps => (c :: p) :: ps

/-- Embeds the Python substring test `pat in s`. -/
def containsSub : PyStr → PyStr → Bool
  | [], pat => pat.isEmpty
  | c :: cs, pat => pat.isPrefixOf (c :: cs) || containsSub cs pat

/-- Splits at the first occurrence of `pat`, returning the text before and
after it; `none` when `pat` does not occur. -/
def splitFirstOcc (pat : PyStr) : PyStr → Option (PyStr × PyStr)
  | [] => if pat.isEmpty then some ([], []) else none
  | c :: cs =>
    if pat.isPrefixOf (c :: cs) then some ([], (c :: cs).drop pat.length)
    else
      match splitFirstOcc pat cs with
      | some (pre, post) => some (c :: pre, post)
      | none => none

/-- Splits at the last occurrence of `pat`, returning the text before and
after it; `none` when `pat` does not occur.  Used to embed a greedy `(.*)`
regular-expression group followed by the literal `pat`. -/
def splitLastOcc (pat : PyStr) : PyStr → Option (PyStr × PyStr)
  | [] => if pat.isEmpty then some ([], []) else none
  | c :: cs =>
    match splitLastOcc pat cs with
    | some (pre, post) => some (c :: pre, post)
    | none =>
      if pat.isPrefixOf (c :: cs) then some ([], (c :: cs).drop pat.length) else none

/-- Drops `pat` from the front of `l` when it is a prefix, else `none`. -/
def stripPrefixOcc (pat l : PyStr) : Option PyStr :=
  if pat.isPrefixOf l then some (l.drop pat.length) else none

/-- Embeds Python `str.isidentifier()` restricted to ASCII identifiers
(the inputs exercised by the source are ASCII). -/
def isIdentifier (s : PyStr) : Bool :=
  match s with
  | [] => false
  | c :: cs => (c.isAlpha || c = '_') && cs.all (fun d => d.isAlphanum || d = '_')

/-- Decimal rendering of a number, for `format` slots holding integers. -/
def natToStr (n : Nat) : PyStr := (Nat.repr n).toList

/-- A token produced by the external tokenizer `utils.collect_tokens`
(that module is outside the embedded sources); only the fields the embedded
code reads are kept. -/
structure Token where
  string : PyStr
  type_ : Nat
deriving DecidableEq

/-- Model of the constant `tokenize.NAME` of the host runtime. -/
def tokNAME : Nat := 1

/-- Model of `keyword.kwlist` of the host runtime (Python 3.8). -/
def kwlist : List PyStr :=
  [S "False", S "None", S "True", S "and", S "as", S "assert", S "async",
   S "await", S "break", S "class", S "continue", S "def", S "del", S "elif",
   S "else", S "except", S "finally", S "for", S "from", S "global", S "if",
   S "import", S "in", S "is", S "lambda", S "nonlocal", S "not", S "or",
   S "pass", S "raise", S "return", S "try", S "while", S "with", S "yield"]

/-- Model of an exception object `value`: its rendered text `str(value)` and
its `args` tuple (restricted to string arguments, which is what the embedded
handlers read). -/
structure PyValue where
  str_ : PyStr
  args : List PyStr
deriving DecidableEq

/-- The `info` mapping threaded through the cause-inference engine, modelled
as an association list with Python-dict assignment semantics. -/
abbrev Info := List (PyStr × PyStr)

/-- The opaque live-frame handle; the embedded handlers never inspect it. -/
abbrev Frame := Unit

/-- Embeds Python dict lookup `d[k]` as an option. -/
def dictGet {α : Type} : List (PyStr × α) → PyStr → Option α
  | [], _ => none
  | (k', v) :: rest, k => if k' = k then some v else dictGet rest k

/-- Embeds Python dict assignment `d[k] = v`: replaces the value in place when
the key is present (keeping its position, as Python dicts do), else appends. -/
def dictSet {α : Type} : List (PyStr × α) → PyStr → α → List (PyStr × α)
  | [], k, v => [(k, v)]
  | (k', v') :: rest, k, v =>
    if k' = k then (k, v) :: rest else (k', v') :: dictSet rest k v

/-- A cause-registry handler `(value, info, frame) -> cause-or-None`, which may
also write into `info` (`suggest`), and may raise. -/
abbrev Handler := PyValue → Info → Frame → PyRes (Option PyStr × Info)

/-- External collaborators of the embedded core.  Each field stands for a
function imported from a module that is not part of the embedded sources
(`utils`, `bracket_analyzer`, `path_info`, the host `sys.modules` / `dir`,
and the delegating per-kind cause modules); they are kept abstract. -/
structure Env where
  collect_tokens : PyStr → List Token
  look_for_mismatched_brackets : Option (List PyStr) → Nat → Nat → PyStr
  look_for_missing_bracket : Option (List PyStr) → Nat → Nat → PyStr
  name_bracket : PyStr → PyStr
  shorten_path : PyStr → PyStr
  sys_modules : PyStr → Option (List PyStr)
  get_similar_words : PyStr → List PyStr → List PyStr
  attribute_error_cause : Handler
  module_not_found_cause : Handler
  name_error_cause : Handler
  type_error_cause : Handler
  unbound_local_cause : Handler

/-- The type of one entry of `MESSAGE_ANALYZERS`:
`(message, line, linenumber, source_lines, offset) -> explanation-or-None`,
possibly raising. -/
abbrev AnalyzerF := PyStr → PyStr → Nat → Option (List PyStr) → Nat → PyRes (Option PyStr)

/-- Embeds `assign_to_keyword` of message_analyzer.py. -/
def assign_to_keyword (env : Env) (message line : PyStr) (_linenumber : Nat)
    (_source_lines : Option (List PyStr)) (_offset : Nat) : PyRes (Option PyStr) :=
  if message = S "can't assign to keyword" ∨ message = S "assignment to keyword" ∨
     message = S "cannot assign to keyword" ∨ message = S "cannot assign to None" ∨
     message = S "cannot assign to True" ∨ message = S "cannot assign to False" ∨
     message = S "cannot assign to __debug__" then
    match (env.collect_tokens line).find?
        (fun t => kwlist.contains t.string || t.string == S "__debug__") with
    | none => .err (.friendlyException (S "analyze_syntax.assign_to_keyword"))
    | some tok =>
      if tok.string = S "None" ∨ tok.string = S "True" ∨ tok.string = S "False" ∨
         tok.string = S "__debug__" then
        .ok (some (tok.string ++ S " is a constant in Python; you cannot assign it a value.\n\n"))
      else
        .ok (some (S "You were trying to assign a value to the Python keyword '" ++
          tok.string ++ S "'.\nThis is not allowed.\n\n"))
  else .ok none

/-- Embeds `assign_to_function_call` of message_analyzer.py. -/
def assign_to_function_call (_env : Env) (message line : PyStr) (_linenumber : Nat)
    (_source_lines : Option (List PyStr)) (_offset : Nat) : PyRes (Option PyStr) :=
  if message = S "can't assign to function call" ∨
     message = S "cannot assign to function call" then
    if line.count '=' > 1 then
      .ok (some (S "You wrote an expression like\n    my_function(...) = some value\nwhere my_function(...), on the left hand-side of the equal sign, is\na function call and not the name of a variable.\n"))
    else
      match splitOnChar '=' line with
      | fn0 :: val0 :: _ =>
        .ok (some (S "You wrote the expression\n    " ++ pyStrip fn0 ++ S " = " ++
          pyStrip val0 ++ S "\nwhere " ++ pyStrip fn0 ++
          S ", on the left hand-side of the equal sign, either is\nor includes a function call and is not simply the name of a variable.\n"))
      | _ => .err .indexError
  else .ok none

/-- The body of the explanation produced by `assign_to_literal`, before the
optional swap suggestion is appended. -/
def assign_to_literal_main (literal name : PyStr) : PyStr :=
  S "You wrote an expression like\n    " ++ literal ++ S " = " ++ name ++
  S "\nwhere <" ++ literal ++
  S ">, on the left hand-side of the equal sign, is\nor includes an actual number or string (what Python calls a 'literal'),\nand not the name of a variable."

/-- Embeds `assign_to_literal` of message_analyzer.py.  Note the unguarded
`line.split(\"=\")[1]`, which raises IndexError when the line has no `=`. -/
def assign_to_literal (_env : Env) (message line : PyStr) (_linenumber : Nat)
    (_source_lines : Option (List PyStr)) (_offset : Nat) : PyRes (Option PyStr) :=
  if message = S "can't assign to literal" ∨ message = S "cannot assign to literal" then
    match splitOnChar '=' line with
    | lit0 :: name0 :: _ =>
      let literal := pyStrip lit0
      let name := pyStrip name0
      let suggest :=
        if isIdentifier name then
          S " Perhaps you meant to write:\n    " ++ name ++ S " = " ++ literal ++ S "\n\n"
        else S "\n"
      .ok (some (assign_to_literal_main literal name ++ suggest))
    | _ => .err .indexError
  else .ok none

/-- The fixed explanation text of `break_outside_loop`. -/
def break_outside_loop_text : PyStr :=
  S "The Python keyword 'break' can only be used inside a for loop or inside a while loop.\n"

/-- Embeds `break_outside_loop` of message_analyzer.py. -/
def break_outside_loop (_env : Env) (message _line : PyStr) (_linenumber : Nat)
    (_source_lines : Option (List PyStr)) (_offset : Nat) : PyRes (Option PyStr) :=
  if containsSub message (S "'break' outside loop") then
    .ok (some break_outside_loop_text)
  else .ok none

/-- The fixed explanation text of `continue_outside_loop`. -/
def continue_outside_loop_text : PyStr :=
  S "The Python keyword 'continue' can only be used inside a for loop or inside a while loop.\n"

/-- Embeds `continue_outside_loop` of message_analyzer.py. -/
def continue_outside_loop (_env : Env) (message _line : PyStr) (_linenumber : Nat)
    (_source_lines : Option (List PyStr)) (_offset : Nat) : PyRes (Option PyStr) :=
  if containsSub message (S "'continue' not properly in loop") then
    .ok (some continue_outside_loop_text)
  else .ok none

/-- Embeds the shape test `tokens[0].string == "del" and tokens[1].type ==
tokenize.NAME and tokens[2].string == "(" and tokens[-1].string == ")"` of
`delete_function_call`, with Python's left-to-right short-circuit evaluation
and its index errors.  Returns the name `tokens[1].string` when the shape
matches, `none` when a conjunct is false. -/
def delShape (tokens : List Token) : PyRes (Option PyStr) :=
  match tokens with
  | [] => .err .indexError
  | t0 :: rest =>
    if t0.string = S "del" then
      match rest with
      | [] => .err .indexError
      | t1 :: rest2 =>
        if t1.type_ = tokNAME then
          match rest2 with
          | [] => .err .indexError
          | t2 :: _ =>
            if t2.string = S "(" then
              match tokens.getLast? with
              | some tl => if tl.string = S ")" then .ok (some t1.string) else .ok none
              | none => .err .indexError
            else .ok none
        else .ok none
    else .ok none

/-- Embeds `delete_function_call` of message_analyzer.py. -/
def delete_function_call (env : Env) (message line : PyStr) (_linenumber : Nat)
    (_source_lines : Option (List PyStr)) (_offset : Nat) : PyRes (Option PyStr) :=
  if message = S "can't delete function call" ∨
     message = S "cannot delete function call" then
    match delShape (env.collect_tokens line) with
    | .err e => .err e
    | .ok shape =>
      let p := match shape with
        | some nm => (line, S "del " ++ nm)
        | none => (S "del function()", S "del function")
      .ok (some (S "You attempted to delete a function call\n    " ++ p.1 ++
        S "\ninstead of deleting the function's name\n    " ++ p.2 ++ S "\n"))
  else .ok none

/-- The fixed explanation text of `eol_while_scanning_string_literal`. -/
def eol_while_scanning_text : PyStr :=
  S "You starting writing a string with a single or double quote\nbut never ended the string with another quote on that line.\n"

/-- Embeds `eol_while_scanning_string_literal` of message_analyzer.py. -/
def eol_while_scanning_string_literal (_env : Env) (message _line : PyStr) (_linenumber : Nat)
    (_source_lines : Option (List PyStr)) (_offset : Nat) : PyRes (Option PyStr) :=
  if containsSub message (S "EOL while scanning string literal") then
    .ok (some eol_while_scanning_text)
  else .ok none

/-- The fixed explanation text of `expression_cannot_contain_assignment`
(rule 8 of the chain). -/
def expression_cannot_contain_assignment_text : PyStr :=
  S "One of the following two possibilities could be the cause:\n1. You meant to do a comparison with == and wrote = instead.\n2. You called a function with a named argument:\n\n       a_function(invalid=something)\n\nwhere 'invalid' is not a valid variable name in Python\neither because it starts with a number, or is a string,\nor contains a period, etc.\n\n"

/-- Embeds `expression_cannot_contain_assignment` of message_analyzer.py. -/
def expression_cannot_contain_assignment (_env : Env) (message _line : PyStr)
    (_linenumber : Nat) (_source_lines : Option (List PyStr)) (_offset : Nat) :
    PyRes (Option PyStr) :=
  if containsSub message (S "expression cannot contain assignment, perhaps you meant") then
    .ok (some expression_cannot_contain_assignment_text)
  else .ok none

/-- The fixed explanation text of `keyword_cannot_be_expression`
(rule 9 of the chain). -/
def keyword_cannot_be_expression_text : PyStr :=
  S "You likely called a function with a named argument:\n\n   a_function(invalid=something)\n\nwhere 'invalid' is not a valid variable name in Python\neither because it starts with a number, or is a string,\nor contains a period, etc.\n\n"

/-- Embeds `keyword_cannot_be_expression` of message_analyzer.py. -/
def keyword_cannot_be_expression (_env : Env) (message _line : PyStr) (_linenumber : Nat)
    (_source_lines : Option (List PyStr)) (_offset : Nat) : PyRes (Option PyStr) :=
  if containsSub message (S "keyword can't be an expression") then
    .ok (some keyword_cannot_be_expression_text)
  else .ok none

/-- Embeds `invalid_character_in_identifier` of message_analyzer.py. -/
def invalid_character_in_identifier (_env : Env) (message _line : PyStr) (_linenumber : Nat)
    (_source_lines : Option (List PyStr)) (_offset : Nat) : PyRes (Option PyStr) :=
  if containsSub message (S "invalid character in identifier") then
    .ok (some (S "You likely used some unicode character that is not allowed\nas part of a variable name in Python.\nThis includes many emojis.\n\n"))
  else .ok none

/-- Tries to match pattern 1 of `mismatched_parenthesis`
(`closing parenthesis '(.)' does not match opening parenthesis '(.)' on line (\d+)`)
at the start of `l`; the single-character groups exclude newline, the digits
group is greedy and non-empty.  Returns (closing, opening, line digits). -/
def tryMismatch1 (l : PyStr) : Option (Char × Char × PyStr) :=
  match stripPrefixOcc (S "closing parenthesis '") l with
  | none => none
  | some r1 =>
    match r1 with
    | [] => none
    | closing :: r2 =>
      if closing = '\n' then none
      else
        match stripPrefixOcc (S "' does not match opening parenthesis '") r2 with
        | none => none
        | some r3 =>
          match r3 with
          | [] => none
          | opening :: r4 =>
            if opening = '\n' then none
            else
              match stripPrefixOcc (S "' on line ") r4 with
              | none => none
              | some r5 =>
                let ds := r5.takeWhile Char.isDigit
                if ds.isEmpty then none else some (closing, opening, ds)

/-- Tries to match pattern 2 of `mismatched_parenthesis` (the shape without a
line number) at the start of `l`. -/
def tryMismatch2 (l : PyStr) : Option (Char × Char) :=
  match stripPrefixOcc (S "closing parenthesis '") l with
  | none => none
  | some r1 =>
    match r1 with
    | [] => none
    | closing :: r2 =>
      if closing = '\n' then none
      else
        match stripPrefixOcc (S "' does not match opening parenthesis '") r2 with
        | none => none
        | some r3 =>
          match r3 with
          | [] => none
          | opening :: r4 =>
            if opening = '\n' then none
            else
              match stripPrefixOcc (S "'") r4 with
              | none => none
              | some _ => some (closing, opening)

/-- Leftmost `re.search` for pattern 1 of `mismatched_parenthesis`. -/
def searchMismatch1 : PyStr → Option (Char × Char × PyStr)
  | [] => none
  | c :: cs =>
    match tryMismatch1 (c :: cs) with
    | some r => some r
    | none => searchMismatch1 cs

/-- Leftmost `re.search` for pattern 2 of `mismatched_parenthesis`. -/
def searchMismatch2 : PyStr → Option (Char × Char)
  | [] => none
  | c :: cs =>
    match tryMismatch2 (c :: cs) with
    | some r => some r
    | none => searchMismatch2 cs

/-- Embeds `mismatched_parenthesis` of message_analyzer.py. -/
def mismatched_parenthesis (env : Env) (message _line : PyStr) (linenumber : Nat)
    (source_lines : Option (List PyStr)) (offset : Nat) : PyRes (Option PyStr) :=
  match searchMismatch1 message with
  | some (closing, opening, lineno) =>
    let response := S "Python tells us that the closing '" ++ [closing] ++
      S "' on the last line shown\ndoes not match the opening '" ++ [opening] ++
      S "' on line " ++ lineno ++ S ".\n\n"
    let additional := env.look_for_mismatched_brackets source_lines linenumber offset
    .ok (some (if additional.isEmpty then response
      else response ++ S "I will attempt to be give a bit more information.\n\n" ++ additional))
  | none =>
    match searchMismatch2 message with
    | none => .ok none
    | some (closing, opening) =>
      let response := S "Python tells us that the closing '" ++ [closing] ++
        S "' on the last line shown\ndoes not match the opening '" ++ [opening] ++ S "'.\n\n"
      let additional := env.look_for_mismatched_brackets source_lines linenumber offset
      .ok (some (if additional.isEmpty then response
        else response ++ S "I will attempt to be give a bit more information.\n\n" ++ additional))

/-- Embeds `unterminated_f_string` of message_analyzer.py. -/
def unterminated_f_string (_env : Env) (message _line : PyStr) (_linenumber : Nat)
    (_source_lines : Option (List PyStr)) (_offset : Nat) : PyRes (Option PyStr) :=
  if containsSub message (S "f-string: unterminated string") then
    .ok (some (S "Inside an f-string, which is a string prefixed by the letter f, \nyou have another string, which starts with either a\nsingle quote (') or double quote (\"), without a matching closing one.\n"))
  else .ok none

/-- Embeds `name_is_parameter_and_global` of message_analyzer.py. -/
def name_is_parameter_and_global (_env : Env) (message line : PyStr) (_linenumber : Nat)
    (_source_lines : Option (List PyStr)) (_offset : Nat) : PyRes (Option PyStr) :=
  if containsSub message (S "is parameter and global") then
    match splitOnChar '\'' message with
    | _ :: name :: _ =>
      let newline :=
        if containsSub line name && containsSub line (S "global") then line
        else S "global " ++ name
      .ok (some (S "You are including the statement\n\n    " ++ newline ++
        S "\n\nindicating that '" ++ name ++
        S "' is a variable defined outside a function.\nYou are also using the same '" ++
        name ++
        S "' as an argument for that\nfunction, thus indicating that it should be variable known only\ninside that function, which is the contrary of what 'global' implied.\n"))
    | _ => .err .indexError
  else .ok none

/-- Embeds `name_assigned_to_prior_global` of message_analyzer.py. -/
def name_assigned_to_prior_global (_env : Env) (message _line : PyStr) (_linenumber : Nat)
    (_source_lines : Option (List PyStr)) (_offset : Nat) : PyRes (Option PyStr) :=
  if containsSub message (S "is assigned to before global declaration") then
    match splitOnChar '\'' message with
    | _ :: name :: _ =>
      .ok (some (S "You assigned a value to the variable '" ++ name ++
        S "'\nbefore declaring it as a global variable.\n"))
    | _ => .err .indexError
  else .ok none

/-- Embeds `name_used_prior_global` of message_analyzer.py. -/
def name_used_prior_global (_env : Env) (message _line : PyStr) (_linenumber : Nat)
    (_source_lines : Option (List PyStr)) (_offset : Nat) : PyRes (Option PyStr) :=
  if containsSub message (S "is used prior to global declaration") then
    match splitOnChar '\'' message with
    | _ :: name :: _ =>
      .ok (some (S "You used the variable '" ++ name ++
        S "'\nbefore declaring it as a global variable.\n"))
    | _ => .err .indexError
  else .ok none

/-- Embeds `name_assigned_to_prior_nonlocal` of message_analyzer.py. -/
def name_assigned_to_prior_nonlocal (_env : Env) (message _line : PyStr) (_linenumber : Nat)
    (_source_lines : Option (List PyStr)) (_offset : Nat) : PyRes (Option PyStr) :=
  if containsSub message (S "is assigned to before nonlocal declaration") then
    match splitOnChar '\'' message with
    | _ :: name :: _ =>
      .ok (some (S "You assigned a value to the variable '" ++ name ++
        S "'\nbefore declaring it as a nonlocal variable.\n"))
    | _ => .err .indexError
  else .ok none

/-- Embeds `name_used_prior_nonlocal` of message_analyzer.py. -/
def name_used_prior_nonlocal (_env : Env) (message _line : PyStr) (_linenumber : Nat)
    (_source_lines : Option (List PyStr)) (_offset : Nat) : PyRes (Option PyStr) :=
  if containsSub message (S "is used prior to nonlocal declaration") then
    match splitOnChar '\'' message with
    | _ :: name :: _ =>
      .ok (some (S "You used the variable '" ++ name ++
        S "'\nbefore declaring it as a nonlocal variable.\n"))
    | _ => .err .indexError
  else .ok none

/-- Embeds `unexpected_character_after_continuation` of message_analyzer.py. -/
def unexpected_character_after_continuation (_env : Env) (message _line : PyStr)
    (_linenumber : Nat) (_source_lines : Option (List PyStr)) (_offset : Nat) :
    PyRes (Option PyStr) :=
  if containsSub message (S "unexpected character after line continuation character") then
    .ok (some (S "You are using the continuation character '\\' outside of a string,\nand it is followed by some other character(s).\nI am guessing that you forgot to enclose some content in a string.\n\n"))
  else .ok none

/-- Embeds `unexpected_eof_while_parsing` of message_analyzer.py. -/
def unexpected_eof_while_parsing (env : Env) (message _line : PyStr) (linenumber : Nat)
    (source_lines : Option (List PyStr)) (offset : Nat) : PyRes (Option PyStr) :=
  if containsSub message (S "unexpected EOF while parsing") then
    .ok (some (S "Python tells us that the it reached the end of the file\nand expected more content.\n\nI will attempt to be give a bit more information.\n\n" ++
      env.look_for_missing_bracket source_lines linenumber offset))
  else .ok none

/-- Embeds `unmatched_parenthesis` of message_analyzer.py. -/
def unmatched_parenthesis (env : Env) (message _line : PyStr) (linenumber : Nat)
    (_source_lines : Option (List PyStr)) (_offset : Nat) : PyRes (Option PyStr) :=
  if message = S "unmatched ')'" then
    .ok (some (S "The closing " ++ env.name_bracket (S ")") ++ S " on line " ++
      natToStr linenumber ++ S " does not match anything.\n"))
  else if message = S "unmatched ']'" then
    .ok (some (S "The closing " ++ env.name_bracket (S "]") ++ S " on line " ++
      natToStr linenumber ++ S " does not match anything.\n"))
  else if message = S "unmatched '\x7d'" then
    .ok (some (S "The closing " ++ env.name_bracket (S "\x7d") ++ S " on line " ++
      natToStr linenumber ++ S " does not match anything.\n"))
  else .ok none

/-- Embeds `position_argument_follows_keyword_arg` of message_analyzer.py. -/
def position_argument_follows_keyword_arg (_env : Env) (message _line : PyStr)
    (_linenumber : Nat) (_source_lines : Option (List PyStr)) (_offset : Nat) :
    PyRes (Option PyStr) :=
  if containsSub message (S "positional argument follows keyword argument") then
    .ok (some (S "In Python, you can call functions with only positional arguments\n\n    test(1, 2, 3)\n\nor only keyword arguments\n\n    test(a=1, b=2, c=3)\n\nor a combination of the two\n\n    test(1, 2, c=3)\n\nbut with the keyword arguments appearing after all the positional ones.\nAccording to Python, you used positional arguments after keyword ones.\n"))
  else .ok none

/-- Embeds `non_default_arg_follows_default_arg` of message_analyzer.py. -/
def non_default_arg_follows_default_arg (_env : Env) (message _line : PyStr)
    (_linenumber : Nat) (_source_lines : Option (List PyStr)) (_offset : Nat) :
    PyRes (Option PyStr) :=
  if containsSub message (S "non-default argument follows default argument") then
    .ok (some (S "In Python, you can define functions with only positional arguments\n\n    def test(a, b, c): ...\n\nor only keyword arguments\n\n    def test(a=1, b=2, c=3): ...\n\nor a combination of the two\n\n    def test(a, b, c=3): ...\n\nbut with the keyword arguments appearing after all the positional ones.\nAccording to Python, you used positional arguments after keyword ones.\n"))
  else .ok none

/-- Embeds `python2_print` of message_analyzer.py; `message[59:-2]` is the
slice dropping the 59-character fixed prefix and the trailing two characters. -/
def python2_print (_env : Env) (message _line : PyStr) (_linenumber : Nat)
    (_source_lines : Option (List PyStr)) (_offset : Nat) : PyRes (Option PyStr) :=
  if (S "Missing parentheses in call to 'print'. Did you mean print(").isPrefixOf message then
    let sliced := (message.drop 59).take (message.length - 2 - 59)
    .ok (some (S "Perhaps you need to type print(" ++ sliced ++
      S ")?\n\nIn older version of Python, 'print' was a keyword.\nNow, 'print' is a function; you need to use parentheses to call it.\n"))
  else .ok none

/-- The list `MESSAGE_ANALYZERS` in the order the decorators append at module
load time (the fixed priority order of the chain). -/
def MESSAGE_ANALYZERS (env : Env) : List AnalyzerF :=
  [assign_to_keyword env, assign_to_function_call env, assign_to_literal env,
   break_outside_loop env, continue_outside_loop env, delete_function_call env,
   eol_while_scanning_string_literal env, expression_cannot_contain_assignment env,
   keyword_cannot_be_expression env, invalid_character_in_identifier env,
   mismatched_parenthesis env, unterminated_f_string env, name_is_parameter_and_global env,
   name_assigned_to_prior_global env, name_used_prior_global env,
   name_assigned_to_prior_nonlocal env, name_used_prior_nonlocal env,
   unexpected_character_after_continuation env, unexpected_eof_while_parsing env,
   unmatched_parenthesis env, position_argument_follows_keyword_arg env,
   non_default_arg_follows_default_arg env, python2_print env]

/-- One step of the `for case in MESSAGE_ANALYZERS` loop: a raised exception
propagates; a truthy result is returned; otherwise the loop continues. -/
def stepCase : PyRes (Option PyStr) → PyRes (Option PyStr) → PyRes (Option PyStr)
  | .err e, _ => .err e
  | .ok cause, next => if pyTruthy cause then .ok cause else next

/-- The loop of `analyze_message`, iterating the chain in order. -/
def analyzeGo : List AnalyzerF → PyStr → PyStr → Nat → Option (List PyStr) → Nat →
    PyRes (Option PyStr)
  | [], _, _, _, _, _ => .ok none
  | case :: rest, m, l, n, sl, o =>
    stepCase (case m l n sl o) (analyzeGo rest m l n sl o)

/-- Embeds `analyze_message` of message_analyzer.py: the first analyzer in
registration order returning a truthy cause wins; falling off the end of the
loop returns `None`. -/
def analyze_message (env : Env) (message line : PyStr) (linenumber : Nat)
    (source_lines : Option (List PyStr)) (offset : Nat) : PyRes (Option PyStr) :=
  analyzeGo (MESSAGE_ANALYZERS env) message line linenumber source_lines offset

/-- Embeds `re.search` of a pattern of the shape `lit1(.*)mid(.*)'`, as used by
the two richest ImportError message patterns: the match starts at the first
occurrence of the literal `lit1`; the first group is greedy, so it extends to
the last occurrence of `mid`; the second group is greedy, so it extends to the
last quote.  (`.` is modelled as matching any character; the messages these
patterns are applied to are single-line.) -/
def searchTwoGroups (lit1 mid : PyStr) (message : PyStr) : Option (PyStr × PyStr) :=
  match splitFirstOcc lit1 message with
  | none => none
  | some (_, r) =>
    match splitLastOcc mid r with
    | none => none
    | some (g1, r2) =>
      match splitLastOcc (S "'") r2 with
      | some (g2, _) => some (g1, g2)
      | none => none

/-- Embeds `re.search` of `cannot import name '(.*)'` (the oldest, name-only
ImportError shape): first literal occurrence, greedy group up to the last
quote. -/
def searchOneGroup (lit1 : PyStr) (message : PyStr) : Option PyStr :=
  match splitFirstOcc lit1 message with
  | none => none
  | some (_, r) =>
    match splitLastOcc (S "'") r with
    | some (g1, _) => some g1
    | none => none

/-- Embeds the per-line test against `^File "(.*)", line` (re.M, searched on a
stripped single line): the line must start with `File "`, the greedy group runs
to the last occurrence of `", line`. -/
def matchFileLine (line : PyStr) : Option PyStr :=
  match stripPrefixOcc (S "File \"") line with
  | none => none
  | some r =>
    match splitLastOcc (S "\", line") r with
    | some (f, _) => some f
    | none => none

/-- Embeds the per-line test against `^from (.*) import`. -/
def matchFromLine (line : PyStr) : Option PyStr :=
  match stripPrefixOcc (S "from ") line with
  | none => none
  | some r =>
    match splitLastOcc (S " import") r with
    | some (m, _) => some m
    | none => none

/-- Embeds the per-line test against `^import (.*)`. -/
def matchImportLine (line : PyStr) : Option PyStr :=
  stripPrefixOcc (S "import ") line

/-- The loop of `find_circular_import` over the lines of the simulated
traceback, carrying `current_file` and building `modules_imported`.  On a bare
`import` line naming several comma-separated modules the source evaluates
`module.split(",").replace("(", "").strip()`, calling `.replace` on the list
returned by `.split`, which raises AttributeError; this is embedded as the
corresponding error. -/
def processTbLines (env : Env) : List PyStr → PyStr → PyRes (List (PyStr × PyStr))
  | [], _ => .ok []
  | line0 :: rest, current_file =>
    let line := pyStrip line0
    match matchFileLine line with
    | some f => processTbLines env rest (env.shorten_path f)
    | none =>
      match matchFromLine line with
      | some m =>
        match processTbLines env rest [] with
        | .ok tail => .ok ((current_file, m) :: tail)
        | .err e => .err e
      | none =>
        match matchImportLine line with
        | some m =>
          if m.contains ',' then .err .attributeError
          else
            match processTbLines env rest [] with
            | .ok tail => .ok ((current_file, m) :: tail)
            | .err e => .err e
        | none => processTbLines env rest current_file

/-- The circular-import narrative produced by `find_circular_import`. -/
def circular_import_narrative (file last_file last_module : PyStr) : PyStr :=
  S "The problem was likely caused by what is known as a 'circular import'.\nFirst, Python imported and started executing the code in file\n   '" ++
  file ++ S "'.\nwhich imports module `" ++ last_module ++
  S "`.\nDuring this process, the code in another file,\n   '" ++ last_file ++
  S "'\nwas executed. However in this last file, an attempt was made\nto import the original module `" ++
  last_module ++ S "`\na second time, before Python had completed the first import.\n"

/-- Embeds `find_circular_import` of runtime_errors/import_error.py (its first
parameter is unused by the body, as in the source).  Reads
`info["simulated_python_traceback"]` (KeyError when missing), parses the trace
lines, takes `modules_imported[-1]` (IndexError when no import line was found)
and scans the earlier entries for a repetition of the last module name. -/
def find_circular_import (env : Env) (_name : PyStr) (info : Info) : PyRes (Option PyStr) :=
  match dictGet info (S "simulated_python_traceback") with
  | none => .err .keyError
  | some tb =>
    match processTbLines env (splitOnChar '\n' tb) [] with
    | .err e => .err e
    | .ok modules_imported =>
      match modules_imported.getLast? with
      | none => .err .indexError
      | some (last_file, last_module) =>
        match modules_imported.dropLast.find? (fun p => p.2 = last_module) with
        | some (file, _) =>
          .ok (some (circular_import_narrative file last_file last_module))
        | none => .ok none

/-- The quote-stripped, comma-joined candidate list built by the plural branch
of `cannot_import_name_from` (each candidate is `c.replace(\"'\", \"\")`). -/
def candidatesOf (l : List PyStr) : PyStr :=
  List.intercalate (S ", ") (l.map (fun c => c.filter (fun ch => ch ≠ '\'')))

/-- The plain two-line cause text naming the object and the module. -/
def cannot_import_cause (name module : PyStr) : PyStr :=
  S "The object that could not be imported is `" ++ name ++
  S "`.\nThe module or package where it was \nexpected to be found is `" ++ module ++ S "`.\n"

/-- Embeds `cannot_import_name_from` of runtime_errors/import_error.py.
`sys.modules[module]` together with `dir(mod)` is modelled by the abstract
`env.sys_modules` (the `except Exception` branch is the `none` case), and
`get_similar_words` (external `utils`) by `env.get_similar_words`. -/
def cannot_import_name_from (env : Env) (name module : PyStr) (info : Info)
    (_frame : Frame) (add_circular_hint : Bool) : PyRes (PyStr × Info) :=
  match find_circular_import env module info with
  | .err e => .err e
  | .ok circular_info =>
    let info :=
      if pyTruthy circular_info && add_circular_hint then
        dictSet info (S "suggest") (S "You have a circular import.\n")
      else info
    let cause := cannot_import_cause name module
    if pyTruthy circular_info then
      .ok (cause ++ S "\n" ++ circular_info.getD [], info)
    else if !add_circular_hint then
      .ok (cause ++ S "\n" ++
        S "Python indicated that you have a circular import.\nThis can occur if executing the code in module 'A'\nresults in executing the code in module 'B' where\nan attempt to import a name from module 'A' is made\nbefore the execution of the code in module 'A' had been completed.\n",
        info)
    else
      match env.sys_modules module with
      | none => .ok (cause, info)
      | some members =>
        match env.get_similar_words name members with
        | [] => .ok (cause, info)
        | [single] =>
          .ok (S "Perhaps you meant to import `" ++ single ++ S "` (from `" ++ module ++
            S "`) instead of `" ++ name ++ S "`\n",
            dictSet info (S "suggest") (S "Did you mean `" ++ single ++ S "`?\n"))
        | first :: second :: more =>
          let candidates := candidatesOf (first :: second :: more)
          .ok (S "Instead of trying to import `" ++ name ++ S "` from `" ++ module ++
            S "`, \nperhaps you meant to import one of \nthe following names which are found in module `" ++
            module ++ S "`:\n`" ++ candidates ++ S "`\n",
            dictSet info (S "suggest")
              (S "Did you mean one of the following: `" ++ candidates ++ S "`?\n"))

/-- Embeds `cannot_import_name` of runtime_errors/import_error.py (the Python
3.6 shape without a module name): searches `info["bad_line"]` for
`from (.*) import` (unanchored, greedy group). -/
def cannot_import_name (env : Env) (name : PyStr) (info : Info) (frame : Frame) :
    PyRes (PyStr × Info) :=
  match dictGet info (S "bad_line") with
  | none => .err .keyError
  | some bad_line =>
    match splitFirstOcc (S "from ") bad_line with
    | some (_, r) =>
      match splitLastOcc (S " import") r with
      | some (m, _) => cannot_import_name_from env name m info frame true
      | none =>
        .ok (S "The object that could not be imported is `" ++ name ++ S "`.\n", info)
    | none =>
      .ok (S "The object that could not be imported is `" ++ name ++ S "`.\n", info)

/-- Embeds `get_cause` of runtime_errors/import_error.py (named with the
module prefix because `info_specific.py` uses the name `get_cause` for its
registry dict): the message is matched against the three progressively looser
ImportError shapes. -/
def import_error_get_cause (env : Env) (value : PyValue) (info : Info) (frame : Frame) :
    PyRes (PyStr × Info) :=
  let message := value.str_
  match searchTwoGroups (S "cannot import name '")
      (S "' from partially initialized module '") message with
  | some (name, module) =>
    if containsSub message (S "circular import") then
      cannot_import_name_from env name module info frame false
    else cannot_import_name_from env name module info frame true
  | none =>
    match searchTwoGroups (S "cannot import name '") (S "' from '") message with
    | some (name, module) => cannot_import_name_from env name module info frame true
    | none =>
      match searchOneGroup (S "cannot import name '") message with
      | some name => cannot_import_name env name info frame
      | none =>
        .ok (S "No information is known about this exception.\nPlease report this example to\nhttps://github.com/aroberge/friendly-traceback/issues\n",
          info)

/-- Model of Python `repr` for the plain string keys the embedded `KeyError`
handler formats with `!r`. -/
def pyRepr (s : PyStr) : PyStr := '\'' :: (s ++ S "'")

/-- Embeds `file_not_found_error` of info_specific.py: `str(value).split("'")[1]`
raises IndexError when the message holds no quote. -/
def file_not_found_error (value : PyValue) (info : Info) (_frame : Frame) :
    PyRes (Option PyStr × Info) :=
  match splitOnChar '\'' value.str_ with
  | _ :: filename :: _ =>
    .ok (some (S "In your program, the name of the\nfile that cannot be found is `" ++
      filename ++ S "`.\n"), info)
  | _ => .err .indexError

/-- Embeds `key_error` of info_specific.py: `value.args[0]` raises IndexError
on an empty args tuple. -/
def key_error (value : PyValue) (info : Info) (_frame : Frame) :
    PyRes (Option PyStr × Info) :=
  match value.args with
  | key :: _ =>
    .ok (some (S "In your program, the key that cannot be found is `" ++ pyRepr key ++
      S "`.\n"), info)
  | [] => .err .indexError

/-- Embeds `overflow_error` of info_specific.py: deliberately no information. -/
def overflow_error (_value : PyValue) (info : Info) (_frame : Frame) :
    PyRes (Option PyStr × Info) :=
  .ok (none, info)

/-- Embeds `zero_division_error` of info_specific.py: deliberately no
information. -/
def zero_division_error (_value : PyValue) (info : Info) (_frame : Frame) :
    PyRes (Option PyStr × Info) :=
  .ok (none, info)

/-- Wraps the ImportError module handler into the registry signature (the
`_import_error` function of info_specific.py; its cause is always a string). -/
def import_error_handler (env : Env) : Handler := fun value info frame =>
  match import_error_get_cause env value info frame with
  | .ok (c, i) => .ok (some c, i)
  | .err e => .err e

/-- Embeds the effect of one `register(error_name)` decoration:
`get_cause[error_name] = function`, i.e. a dict assignment. -/
def registerOne {α : Type} (d : List (PyStr × α)) (p : PyStr × α) : List (PyStr × α) :=
  dictSet d p.1 p.2

/-- Applies a sequence of `register` calls, in order, to a registry dict. -/
def applyRegisters {α : Type} (d : List (PyStr × α)) (regs : List (PyStr × α)) :
    List (PyStr × α) :=
  regs.foldl registerOne d

/-- The value most recently registered for a tag in a sequence of register
calls (later entries win). -/
def lastAssoc {α : Type} : List (PyStr × α) → PyStr → Option α
  | [], _ => none
  | (k, v) :: rest, tag =>
    match lastAssoc rest tag with
    | some v' => some v'
    | none => if k = tag then some v else none

/-- The keys of a registry dict. -/
def dictKeys {α : Type} (d : List (PyStr × α)) : List PyStr := d.map Prod.fst

/-- The `get_cause` registry dict of info_specific.py after the module's ten
`@register` decorations have run, in source order.  The five handlers that
delegate to per-kind modules outside the embedded sources are the abstract
`Env` fields. -/
def get_cause_dict (env : Env) : List (PyStr × Handler) :=
  applyRegisters []
    [(S "AttributeError", env.attribute_error_cause),
     (S "FileNotFoundError", file_not_found_error),
     (S "ImportError", import_error_handler env),
     (S "KeyError", key_error),
     (S "ModuleNotFoundError", env.module_not_found_cause),
     (S "NameError", env.name_error_cause),
     (S "OverflowError", overflow_error),
     (S "TypeError", env.type_error_cause),
     (S "UnboundLocalError", env.unbound_local_cause),
     (S "ZeroDivisionError", zero_division_error)]

/-- Embeds `get_likely_cause` of info_specific.py over a registry dict: when
the exception-type name has a handler, run it; a non-None cause is written
into `info` under `cause_header` and `cause`; no handler means the info
mapping is returned untouched. -/
def get_likely_cause (reg : List (PyStr × Handler)) (etypeName : PyStr)
    (value : PyValue) (info : Info) (frame : Frame) : PyRes Info :=
  match dictGet reg etypeName with
  | none => .ok info
  | some handler =>
    match handler value info frame with
    | .err e => .err e
    | .ok (none, info') => .ok info'
    | .ok (some cause, info') =>
      .ok (dictSet (dictSet info' (S "cause_header")
        (S "Likely cause based on the information given by Python:")) (S "cause") cause)

/-- An environment with trivial external collaborators, used to evaluate the
embedding at concrete inputs. -/
def trivialEnv : Env where
  collect_tokens := fun _ => []
  look_for_mismatched_brackets := fun _ _ _ => []
  look_for_missing_bracket := fun _ _ _ => []
  name_bracket := fun b => b
  shorten_path := fun p => p
  sys_modules := fun _ => none
  get_similar_words := fun _ _ => []
  attribute_error_cause := fun _ i _ => .ok (none, i)
  module_not_found_cause := fun _ i _ => .ok (none, i)
  name_error_cause := fun _ i _ => .ok (none, i)
  type_error_cause := fun _ i _ => .ok (none, i)
  unbound_local_cause := fun _ i _ => .ok (none, i)

/-- The message used to refute the universally quantified form of C1: it
contains the trigger substrings of rules 8 and 9 but also the trigger of the
earlier rule 4. -/
def c1_message : PyStr :=
  S "'break' outside loop; expression cannot contain assignment, perhaps you meant; keyword can't be an expression"

/-- An info mapping whose simulated traceback holds a comma-separated
multi-module import line, the failing input of C4. -/
def c4_info : Info :=
  [(S "simulated_python_traceback",
    S "File \"a.py\", line 1, in <module>\nimport os, sys")]

/-- The exception value of the C5 scenario:
`cannot import name 'foo' from 'bar'`. -/
def c5_value : PyValue := ⟨S "cannot import name 'foo' from 'bar'", []⟩

/-- The info mapping of the C5 scenario: a one-import simulated traceback, so
circular-import detection finds nothing. -/
def c5_info : Info :=
  [(S "simulated_python_traceback",
    S "Traceback (most recent call last):\n  File \"app.py\", line 1, in <module>\n    from bar import foo\nImportError: cannot import name 'foo' from 'bar'")]

/-- The plural-branch cause text of the C5 scenario. -/
def c5_plural_cause : PyStr :=
  S "Instead of trying to import `foo` from `bar`, \nperhaps you meant to import one of \nthe following names which are found in module `bar`:\n`foo_bar, food`\n"

/-- The plural-branch suggestion text of the C5 scenario. -/
def c5_plural_suggest : PyStr :=
  S "Did you mean one of the following: `foo_bar, food`?\n"

/-- The singular-branch cause text of the C5 scenario. -/
def c5_singular_cause : PyStr :=
  S "Perhaps you meant to import `foo_bar` (from `bar`) instead of `foo`\n"

/-- An environment whose module table and fuzzy matcher produce the two-name
match of the C5 plural scenario. -/
def c5_env_plural : Env :=
  { trivialEnv with
    sys_modules := fun _ => some [S "foo_bar", S "food"],
    get_similar_words := fun _ _ => [S "foo_bar", S "food"] }

/-- An environment whose fuzzy matcher produces exactly one match, the C5
singular scenario. -/
def c5_env_single : Env :=
  { trivialEnv with
    sys_modules := fun _ => some [S "foo_bar", S "food"],
    get_similar_words := fun _ _ => [S "foo_bar"] }

/-- The explanation of the C6 scenario (`5 = x`), including the swapped
assignment suggestion. -/
def c6_expected : PyStr :=
  assign_to_literal_main (S "5") (S "x") ++
  S " Perhaps you meant to write:\n    x = 5\n\n"

lemma bool_tt_ff {b : Bool} (h : b = true) (h' : b = false) : False := by
  rw [h] at h'; exact Bool.noConfusion h'

lemma stepCase_err (e : PyErr) (next : PyRes (Option PyStr)) :
    stepCase (.err e) next = .err e := rfl

lemma stepCase_ok_none (next : PyRes (Option PyStr)) :
    stepCase (.ok none) next = next := rfl

lemma stepCase_truthy {cause : Option PyStr} (next : PyRes (Option PyStr))
    (h : pyTruthy cause = true) : stepCase (.ok cause) next = .ok cause := by
  show (if pyTruthy cause = true then PyRes.ok cause else next) = PyRes.ok cause
  rw [if_pos h]

lemma assign_to_keyword_skip (env : Env) {message : PyStr} (line : PyStr) (n : Nat)
    (sl : Option (List PyStr)) (o : Nat) {pat : PyStr}
    (h : containsSub message pat = true)
    (h1 : containsSub (S "can't assign to keyword") pat = false)
    (h2 : containsSub (S "assignment to keyword") pat = false)
    (h3 : containsSub (S "cannot assign to keyword") pat = false)
    (h4 : containsSub (S "cannot assign to None") pat = false)
    (h5 : containsSub (S "cannot assign to True") pat = false)
    (h6 : containsSub (S "cannot assign to False") pat = false)
    (h7 : containsSub (S "cannot assign to __debug__") pat = false) :
    assign_to_keyword env message line n sl o = .ok none := by
  unfold assign_to_keyword
  rw [if_neg]
  rintro (rfl | rfl | rfl | rfl | rfl | rfl | rfl)
  exacts [bool_tt_ff h h1, bool_tt_ff h h2, bool_tt_ff h h3, bool_tt_ff h h4,
    bool_tt_ff h h5, bool_tt_ff h h6, bool_tt_ff h h7]

lemma assign_to_function_call_skip (env : Env) {message : PyStr} (line : PyStr) (n : Nat)
    (sl : Option (List PyStr)) (o : Nat) {pat : PyStr}
    (h : containsSub message pat = true)
    (h1 : containsSub (S "can't assign to function call") pat = false)
    (h2 : containsSub (S "cannot assign to function call") pat = false) :
    assign_to_function_call env message line n sl o = .ok none := by
  unfold assign_to_function_call
  rw [if_neg]
  rintro (rfl | rfl)
  exacts [bool_tt_ff h h1, bool_tt_ff h h2]

lemma assign_to_literal_skip (env : Env) {message : PyStr} (line : PyStr) (n : Nat)
    (sl : Option (List PyStr)) (o : Nat) {pat : PyStr}
    (h : containsSub message pat = true)
    (h1 : containsSub (S "can't assign to literal") pat = false)
    (h2 : containsSub (S "cannot assign to literal") pat = false) :
    assign_to_literal env message line n sl o = .ok none := by
  unfold assign_to_literal
  rw [if_neg]
  rintro (rfl | rfl)
  exacts [bool_tt_ff h h1, bool_tt_ff h h2]

lemma delete_function_call_skip (env : Env) {message : PyStr} (line : PyStr) (n : Nat)
    (sl : Option (List PyStr)) (o : Nat) {pat : PyStr}
    (h : containsSub message pat = true)
    (h1 : containsSub (S "can't delete function call") pat = false)
    (h2 : containsSub (S "cannot delete function call") pat = false) :
    delete_function_call env message line n sl o = .ok none := by
  unfold delete_function_call
  rw [if_neg]
  rintro (rfl | rfl)
  exacts [bool_tt_ff h h1, bool_tt_ff h h2]

lemma break_outside_loop_pos (env : Env) {message : PyStr} (line : PyStr) (n : Nat)
    (sl : Option (List PyStr)) (o : Nat)
    (h : containsSub message (S "'break' outside loop") = true) :
    break_outside_loop env message line n sl o = .ok (some break_outside_loop_text) := by
  unfold break_outside_loop; rw [if_pos h]

lemma break_outside_loop_neg (env : Env) {message : PyStr} (line : PyStr) (n : Nat)
    (sl : Option (List PyStr)) (o : Nat)
    (h : containsSub message (S "'break' outside loop") = false) :
    break_outside_loop env message line n sl o = .ok none := by
  unfold break_outside_loop; rw [if_neg (fun hh => bool_tt_ff hh h)]

lemma continue_outside_loop_neg (env : Env) {message : PyStr} (line : PyStr) (n : Nat)
    (sl : Option (List PyStr)) (o : Nat)
    (h : containsSub message (S "'continue' not properly in loop") = false) :
    continue_outside_loop env message line n sl o = .ok none := by
  unfold continue_outside_loop; rw [if_neg (fun hh => bool_tt_ff hh h)]

lemma continue_outside_loop_pos (env : Env) {message : PyStr} (line : PyStr) (n : Nat)
    (sl : Option (List PyStr)) (o : Nat)
    (h : containsSub message (S "'continue' not properly in loop") = true) :
    continue_outside_loop env message line n sl o = .ok (some continue_outside_loop_text) := by
  unfold continue_outside_loop; rw [if_pos h]

lemma eol_while_scanning_neg (env : Env) {message : PyStr} (line : PyStr) (n : Nat)
    (sl : Option (List PyStr)) (o : Nat)
    (h : containsSub message (S "EOL while scanning string literal") = false) :
    eol_while_scanning_string_literal env message line n sl o = .ok none := by
  unfold eol_while_scanning_string_literal; rw [if_neg (fun hh => bool_tt_ff hh h)]

lemma eol_while_scanning_pos (env : Env) {message : PyStr} (line : PyStr) (n : Nat)
    (sl : Option (List PyStr)) (o : Nat)
    (h : containsSub message (S "EOL while scanning string literal") = true) :
    eol_while_scanning_string_literal env message line n sl o =
      .ok (some eol_while_scanning_text) := by
  unfold eol_while_scanning_string_literal; rw [if_pos h]

lemma expression_cannot_contain_assignment_pos (env : Env) {message : PyStr} (line : PyStr)
    (n : Nat) (sl : Option (List PyStr)) (o : Nat)
    (h : containsSub message (S "expression cannot contain assignment, perhaps you meant") = true) :
    expression_cannot_contain_assignment env message line n sl o =
      .ok (some expression_cannot_contain_assignment_text) := by
  unfold expression_cannot_contain_assignment; rw [if_pos h]

/-- C8.  For any message containing `'break' outside loop`, `analyze_message`
returns the fixed `break_outside_loop` template whatever the other arguments
are; in particular two calls differing only in `line`, `linenumber`,
`source_lines` and `offset` return the same explanation. -/
theorem c8_break_output_independent_of_location (env : Env) (m : PyStr)
    (l l' : PyStr) (n n' : Nat) (sl sl' : Option (List PyStr)) (o o' : Nat)
    (h : containsSub m (S "'break' outside loop") = true) :
    analyze_message env m l n sl o = .ok (some break_outside_loop_text) ∧
    analyze_message env m l' n' sl' o' = analyze_message env m l n sl o := by
  have key : ∀ l2 n2 sl2 o2,
      analyze_message env m l2 n2 sl2 o2 = .ok (some break_outside_loop_text) := by
    intro l2 n2 sl2 o2
    unfold analyze_message MESSAGE_ANALYZERS
    simp only [analyzeGo]
    rw [assign_to_keyword_skip env l2 n2 sl2 o2 h (by decide) (by decide) (by decide)
        (by decide) (by decide) (by decide) (by decide),
      assign_to_function_call_skip env l2 n2 sl2 o2 h (by decide) (by decide),
      assign_to_literal_skip env l2 n2 sl2 o2 h (by decide) (by decide),
      break_outside_loop_pos env l2 n2 sl2 o2 h]
    rfl
  exact ⟨key l n sl o, (key l' n' sl' o').trans (key l n sl o).symm⟩

/-- C8 witness: the theorem applied at two concrete argument tuples. -/
theorem c8_witness :
    containsSub (S "'break' outside loop") (S "'break' outside loop") = true ∧
    analyze_message trivialEnv (S "'break' outside loop") (S "while x:") 3
      (some [S "while x:"]) 7 = .ok (some break_outside_loop_text) :=
  ⟨by decide,
    (c8_break_output_independent_of_location trivialEnv (S "'break' outside loop")
      (S "while x:") (S "") 3 0 (some [S "while x:"]) none 7 0 (by decide)).1⟩

/-- C1 counterexample: a message containing both rule 8's and rule 9's trigger
substrings for which `analyze_message` returns neither rule 8's nor rule 9's
explanation, because the earlier rule 4 (`'break' outside loop`) matches
first.  This refutes "for any message containing both ... the rule #8
explanation is returned". -/
theorem c1_counterexample :
    containsSub c1_message (S "expression cannot contain assignment, perhaps you meant") = true ∧
    containsSub c1_message (S "keyword can't be an expression") = true ∧
    analyze_message trivialEnv c1_message [] 0 none 0 = .ok (some break_outside_loop_text) ∧
    break_outside_loop_text ≠ expression_cannot_contain_assignment_text := by
  refine ⟨by decide, by decide, by decide, by decide⟩

/-- C1 (amended).  `analyze_message` tries the matchers in registration order
and returns the first truthy explanation.  Hence, for a message containing
both rule 8's and rule 9's trigger substrings: rule 9's explanation is never
returned, and if no earlier matcher fires either (rules 1-3 and 6 cannot
match such a message; rules 4, 5 and 7 must be excluded explicitly), rule 8's
explanation is returned. -/
theorem c1_rule8_beats_rule9_amended (env : Env) (m l : PyStr) (n : Nat)
    (sl : Option (List PyStr)) (o : Nat)
    (h8 : containsSub m (S "expression cannot contain assignment, perhaps you meant") = true)
    (_h9 : containsSub m (S "keyword can't be an expression") = true) :
    (containsSub m (S "'break' outside loop") = false →
     containsSub m (S "'continue' not properly in loop") = false →
     containsSub m (S "EOL while scanning string literal") = false →
     analyze_message env m l n sl o = .ok (some expression_cannot_contain_assignment_text)) ∧
    analyze_message env m l n sl o ≠ .ok (some keyword_cannot_be_expression_text) := by
  constructor
  · intro hb hc he
    unfold analyze_message MESSAGE_ANALYZERS
    simp only [analyzeGo]
    rw [assign_to_keyword_skip env l n sl o h8 (by decide) (by decide) (by decide)
        (by decide) (by decide) (by decide) (by decide),
      assign_to_function_call_skip env l n sl o h8 (by decide) (by decide),
      assign_to_literal_skip env l n sl o h8 (by decide) (by decide),
      break_outside_loop_neg env l n sl o hb,
      continue_outside_loop_neg env l n sl o hc,
      delete_function_call_skip env l n sl o h8 (by decide) (by decide),
      eol_while_scanning_neg env l n sl o he,
      expression_cannot_contain_assignment_pos env l n sl o h8]
    rfl
  · cases hb : containsSub m (S "'break' outside loop") with
    | true =>
      unfold analyze_message MESSAGE_ANALYZERS
      simp only [analyzeGo]
      rw [assign_to_keyword_skip env l n sl o h8 (by decide) (by decide) (by decide)
          (by decide) (by decide) (by decide) (by decide),
        assign_to_function_call_skip env l n sl o h8 (by decide) (by decide),
        assign_to_literal_skip env l n sl o h8 (by decide) (by decide),
        break_outside_loop_pos env l n sl o hb]
      intro hcon
      exact absurd (show PyRes.ok (some break_outside_loop_text) =
        PyRes.ok (some keyword_cannot_be_expression_text) from hcon) (by decide)
    | false =>
      cases hc : containsSub m (S "'continue' not properly in loop") with
      | true =>
        unfold analyze_message MESSAGE_ANALYZERS
        simp only [analyzeGo]
        rw [assign_to_keyword_skip env l n sl o h8 (by decide) (by decide) (by decide)
            (by decide) (by decide) (by decide) (by decide),
          assign_to_function_call_skip env l n sl o h8 (by decide) (by decide),
          assign_to_literal_skip env l n sl o h8 (by decide) (by decide),
          break_outside_loop_neg env l n sl o hb,
          continue_outside_loop_pos env l n sl o hc]
        intro hcon
        exact absurd (show PyRes.ok (some continue_outside_loop_text) =
          PyRes.ok (some keyword_cannot_be_expression_text) from hcon) (by decide)
      | false =>
        cases he : containsSub m (S "EOL while scanning string literal") with
        | true =>
          unfold analyze_message MESSAGE_ANALYZERS
          simp only [analyzeGo]
          rw [assign_to_keyword_skip env l n sl o h8 (by decide) (by decide) (by decide)
              (by decide) (by decide) (by decide) (by decide),
            assign_to_function_call_skip env l n sl o h8 (by decide) (by decide),
            assign_to_literal_skip env l n sl o h8 (by decide) (by decide),
            break_outside_loop_neg env l n sl o hb,
            continue_outside_loop_neg env l n sl o hc,
            delete_function_call_skip env l n sl o h8 (by decide) (by decide),
            eol_while_scanning_pos env l n sl o he]
          intro hcon
          exact absurd (show PyRes.ok (some eol_while_scanning_text) =
            PyRes.ok (some keyword_cannot_be_expression_text) from hcon) (by decide)
        | false =>
          unfold analyze_message MESSAGE_ANALYZERS
          simp only [analyzeGo]
          rw [assign_to_keyword_skip env l n sl o h8 (by decide) (by decide) (by decide)
              (by decide) (by decide) (by decide) (by decide),
            assign_to_function_call_skip env l n sl o h8 (by decide) (by decide),
            assign_to_literal_skip env l n sl o h8 (by decide) (by decide),
            break_outside_loop_neg env l n sl o hb,
            continue_outside_loop_neg env l n sl o hc,
            delete_function_call_skip env l n sl o h8 (by decide) (by decide),
            eol_while_scanning_neg env l n sl o he,
            expression_cannot_contain_assignment_pos env l n sl o h8]
          intro hcon
          exact absurd (show PyRes.ok (some expression_cannot_contain_assignment_text) =
            PyRes.ok (some keyword_cannot_be_expression_text) from hcon) (by decide)

lemma isPrefixOf_append_self (pat t : PyStr) : pat.isPrefixOf (pat ++ t) = true := by
  rw [List.isPrefixOf_iff_prefix]
  exact List.prefix_append pat t

lemma containsSub_prefix (pat t : PyStr) : containsSub (pat ++ t) pat = true := by
  cases hpt : pat ++ t with
  | nil =>
    have hp : pat = [] := (List.append_eq_nil.mp hpt).1
    subst hp; rfl
  | cons c cs =>
    simp only [containsSub]
    rw [← hpt, isPrefixOf_append_self]
    exact Bool.true_or _

lemma containsSub_cons (c : Char) {cs pat : PyStr} (h : containsSub cs pat = true) :
    containsSub (c :: cs) pat = true := by
  simp only [containsSub]
  rw [h]
  exact Bool.or_true _

lemma containsSub_of_infix {pat m : PyStr} (h : pat <:+: m) : containsSub m pat = true := by
  obtain ⟨s, t, hst⟩ := h
  subst hst
  induction s with
  | nil => exact containsSub_prefix pat t
  | cons c cs ih => exact containsSub_cons c ih

/-- C2 counterexample: a FileNotFoundError whose rendered message holds no
quote character makes the registered handler raise IndexError
(`str(value).split(\"'\")[1]`), and `get_likely_cause` lets that error
propagate instead of catching it at the per-handler boundary and returning an
absent result. -/
theorem c2_counterexample :
    get_likely_cause (get_cause_dict trivialEnv) (S "FileNotFoundError")
      ⟨S "no file found", []⟩ [] () = .err .indexError := by decide

/-- C2 (amended).  When a registered handler raises, `get_likely_cause`
propagates the error to its caller; there is no per-handler catch boundary in
the cause-inference entry point. -/
theorem c2_handler_error_propagates (reg : List (PyStr × Handler)) (etypeName : PyStr)
    (value : PyValue) (info : Info) (fr : Frame) (h : Handler) (e : PyErr)
    (hreg : dictGet reg etypeName = some h)
    (herr : h value info fr = .err e) :
    get_likely_cause reg etypeName value info fr = .err e := by
  simp only [get_likely_cause, hreg, herr]

/-- C2 witness: the propagation theorem applied to the FileNotFoundError
handler at a quote-free message. -/
theorem c2_amended_witness :
    get_likely_cause (get_cause_dict trivialEnv) (S "FileNotFoundError")
      ⟨S "nameless", []⟩ [] () = .err .indexError :=
  c2_handler_error_propagates (get_cause_dict trivialEnv) (S "FileNotFoundError")
    ⟨S "nameless", []⟩ [] () file_not_found_error .indexError rfl (by decide)

/-- C3.  A fault kind with no registered handler makes `get_likely_cause`
return with the info mapping untouched (so no `cause` or `cause_header` entry
is added) and never raises. -/
theorem c3_unregistered_returns_absent (env : Env) (etypeName : PyStr) (value : PyValue)
    (info : Info) (fr : Frame)
    (h : dictGet (get_cause_dict env) etypeName = none) :
    get_likely_cause (get_cause_dict env) etypeName value info fr = .ok info := by
  unfold get_likely_cause
  rw [h]

/-- C3 witness: `ArithmeticError` has no registered handler; the info mapping
comes back unchanged, in particular with no `cause` entry. -/
theorem c3_witness :
    dictGet (get_cause_dict trivialEnv) (S "ArithmeticError") = none ∧
    get_likely_cause (get_cause_dict trivialEnv) (S "ArithmeticError")
      ⟨S "x", []⟩ [(S "k", S "v")] () = .ok [(S "k", S "v")] :=
  ⟨rfl, c3_unregistered_returns_absent trivialEnv (S "ArithmeticError") ⟨S "x", []⟩
    [(S "k", S "v")] () rfl⟩

/-- C7.  Whenever the rendered FileNotFoundError message splits on quotes into
at least two parts, the handler returns the cause built around part 1 (the
text between the first and second quote character), and that cause contains
the extracted filename literally. -/
theorem c7_file_not_found_extracts (sv p0 fname : PyStr) (rest : List PyStr)
    (args : List PyStr) (info : Info) (fr : Frame)
    (h : splitOnChar '\'' sv = p0 :: fname :: rest) :
    file_not_found_error ⟨sv, args⟩ info fr =
      .ok (some (S "In your program, the name of the\nfile that cannot be found is `" ++
        fname ++ S "`.\n"), info) ∧
    containsSub (S "In your program, the name of the\nfile that cannot be found is `" ++
      fname ++ S "`.\n") fname = true := by
  constructor
  · unfold file_not_found_error
    rw [h]
  · apply containsSub_of_infix
    rw [List.append_assoc]
    exact List.infix_append' _ _ _

/-- C7 witness: the extraction theorem at a concrete message. -/
theorem c7_witness :
    splitOnChar '\'' (S "No such file or directory: 'foo.txt'") =
      [S "No such file or directory: ", S "foo.txt", S ""] ∧
    file_not_found_error ⟨S "No such file or directory: 'foo.txt'", []⟩ [] () =
      .ok (some (S "In your program, the name of the\nfile that cannot be found is `" ++
        S "foo.txt" ++ S "`.\n"), []) :=
  ⟨by decide,
    (c7_file_not_found_extracts (S "No such file or directory: 'foo.txt'")
      (S "No such file or directory: ") (S "foo.txt") [S ""] [] [] () (by decide)).1⟩

lemma dictGet_dictSet {α : Type} (d : List (PyStr × α)) (k q : PyStr) (v : α) :
    dictGet (dictSet d k v) q = if k = q then some v else dictGet d q := by
  induction d with
  | nil => simp [dictSet, dictGet]
  | cons p rest ih =>
    obtain ⟨a, w⟩ := p
    by_cases hak : a = k
    · subst hak
      simp only [dictSet, if_pos rfl, dictGet]
      by_cases haq : a = q
      · simp [haq]
      · simp [haq]
    · simp only [dictSet, if_neg hak, dictGet]
      by_cases haq : a = q
      · subst haq
        have hkq : ¬ k = a := fun hh => hak hh.symm
        simp [hkq]
      · simp [haq, ih]

lemma dictGet_applyRegisters {α : Type} (regs : List (PyStr × α))
    (d : List (PyStr × α)) (tag : PyStr) :
    dictGet (applyRegisters d regs) tag =
      (match lastAssoc regs tag with
       | some v => some v
       | none => dictGet d tag) := by
  induction regs generalizing d with
  | nil => rfl
  | cons p regs ih =>
    obtain ⟨k, v⟩ := p
    show dictGet (applyRegisters (dictSet d k v) regs) tag = _
    rw [ih (dictSet d k v)]
    show _ = (match (match lastAssoc regs tag with
       | some v' => some v'
       | none => if k = tag then some v else none) with
       | some v => some v
       | none => dictGet d tag)
    cases lastAssoc regs tag with
    | some v' => rfl
    | none =>
      show dictGet (dictSet d k v) tag = (match (if k = tag then some v else none) with
        | some v => some v
        | none => dictGet d tag)
      rw [dictGet_dictSet]
      by_cases hk : k = tag
      · rw [if_pos hk, if_pos hk]
      · rw [if_neg hk, if_neg hk]

lemma dictKeys_dictSet {α : Type} (d : List (PyStr × α)) (k : PyStr) (v : α) :
    dictKeys (dictSet d k v) =
      if k ∈ dictKeys d then dictKeys d else dictKeys d ++ [k] := by
  induction d with
  | nil =>
    show [k] = if k ∈ ([] : List PyStr) then [] else [] ++ [k]
    rw [if_neg (List.not_mem_nil k)]
    rfl
  | cons p rest ih =>
    obtain ⟨a, w⟩ := p
    show dictKeys (if a = k then (k, v) :: rest else (a, w) :: dictSet rest k v) = _
    by_cases hak : a = k
    · rw [if_pos hak]
      subst hak
      show a :: dictKeys rest = _
      have hmem : a ∈ dictKeys ((a, w) :: rest) := List.mem_cons_self a (dictKeys rest)
      rw [if_pos hmem]
      rfl
    · rw [if_neg hak]
      show a :: dictKeys (dictSet rest k v) = _
      rw [ih]
      by_cases hk : k ∈ dictKeys rest
      · have hmem : k ∈ dictKeys ((a, w) :: rest) := List.mem_cons_of_mem a hk
        rw [if_pos hk, if_pos hmem]
        rfl
      · have hnot : k ∉ dictKeys ((a, w) :: rest) := by
          intro hmem
          rcases List.mem_cons.mp hmem with h1 | h2
          · exact hak h1.symm
          · exact hk h2
        rw [if_neg hk, if_neg hnot]
        rfl

lemma nodup_dictKeys_dictSet {α : Type} {d : List (PyStr × α)} (k : PyStr) (v : α)
    (h : (dictKeys d).Nodup) : (dictKeys (dictSet d k v)).Nodup := by
  rw [dictKeys_dictSet]
  by_cases hk : k ∈ dictKeys d
  · rw [if_pos hk]; exact h
  · rw [if_neg hk]
    have hdisj : (dictKeys d).Disjoint [k] := by
      intro x hx hxk
      rw [List.mem_singleton] at hxk
      subst hxk
      exact hk hx
    exact h.append (List.nodup_singleton k) hdisj

lemma nodup_dictKeys_applyRegisters {α : Type} (regs : List (PyStr × α))
    (d : List (PyStr × α)) (h : (dictKeys d).Nodup) :
    (dictKeys (applyRegisters d regs)).Nodup := by
  induction regs generalizing d with
  | nil => exact h
  | cons p regs ih =>
    exact ih (dictSet d p.1 p.2) (nodup_dictKeys_dictSet p.1 p.2 h)

/-- C9.  Starting from the empty `get_cause` dict, any sequence of `register`
calls (each one a dict assignment) yields a registry in which a lookup
returns exactly the handler most recently registered for that tag (later
registrations silently overwrite earlier ones), and whose keys are free of
duplicates: at most one handler per tag at all times. -/
theorem c9_registry_last_registration_wins {α : Type} (regs : List (PyStr × α))
    (tag : PyStr) :
    dictGet (applyRegisters [] regs) tag = lastAssoc regs tag ∧
    (dictKeys (applyRegisters ([] : List (PyStr × α)) regs)).Nodup := by
  constructor
  · rw [dictGet_applyRegisters]
    cases lastAssoc regs tag with
    | some v => rfl
    | none => rfl
  · exact nodup_dictKeys_applyRegisters regs [] List.nodup_nil

/-- C1 witness: the amended theorem applied to a concrete message containing
both triggers and no earlier-rule trigger. -/
theorem c1_amended_witness :
    analyze_message trivialEnv
      (S "expression cannot contain assignment, perhaps you meant == (keyword can't be an expression)")
      [] 0 none 0 = .ok (some expression_cannot_contain_assignment_text) :=
  (c1_rule8_beats_rule9_amended trivialEnv
    (S "expression cannot contain assignment, perhaps you meant == (keyword can't be an expression)")
    [] 0 none 0 (by decide) (by decide)).1 (by decide) (by decide) (by decide)

/-- C4: code-bug evidence.  On a simulated traceback containing the bare
line `import os, sys`, the comma branch of `find_circular_import` evaluates
`module.split(",").replace("(", "").strip()`, calling `.replace` on the list
returned by `.split`, so it raises AttributeError instead of producing one
(file, module) pair per module as intended. -/
theorem c4_comma_import_raises (env : Env) (name : PyStr) :
    find_circular_import env name c4_info = .err .attributeError := rfl

lemma cannot_import_name_from_plural (env : Env) (name module : PyStr) (info : Info)
    (fr : Frame) (M : List PyStr) (a b : PyStr) (more : List PyStr)
    (hcirc : find_circular_import env module info = .ok none)
    (hmod : env.sys_modules module = some M)
    (hsim : env.get_similar_words name M = a :: b :: more) :
    cannot_import_name_from env name module info fr true =
      .ok (S "Instead of trying to import `" ++ name ++ S "` from `" ++ module ++
        S "`, \nperhaps you meant to import one of \nthe following names which are found in module `" ++
        module ++ S "`:\n`" ++ candidatesOf (a :: b :: more) ++ S "`\n",
        dictSet info (S "suggest")
          (S "Did you mean one of the following: `" ++ candidatesOf (a :: b :: more) ++
            S "`?\n")) := by
  simp only [cannot_import_name_from, hcirc, hmod, hsim, pyTruthy, Bool.false_and,
    Bool.not_true]
  rfl

lemma cannot_import_name_from_singular (env : Env) (name module : PyStr) (info : Info)
    (fr : Frame) (M : List PyStr) (a : PyStr)
    (hcirc : find_circular_import env module info = .ok none)
    (hmod : env.sys_modules module = some M)
    (hsim : env.get_similar_words name M = [a]) :
    cannot_import_name_from env name module info fr true =
      .ok (S "Perhaps you meant to import `" ++ a ++ S "` (from `" ++ module ++
        S "`) instead of `" ++ name ++ S "`\n",
        dictSet info (S "suggest") (S "Did you mean `" ++ a ++ S "`?\n")) := by
  simp only [cannot_import_name_from, hcirc, hmod, hsim, pyTruthy, Bool.false_and,
    Bool.not_true]
  rfl

/-- C5.  For the message `cannot import name 'foo' from 'bar'` with module
`bar` loaded and no circular-import evidence, when the fuzzy matcher returns
the two members `foo_bar` and `food`, the ImportError handler returns a cause
listing both candidates and writes the plural `Did you mean one of the
following` suggestion into `info`; when it returns exactly one member, the
singular `Did you mean ...?` phrasing is used. -/
theorem c5_import_fuzzy_phrasing (env : Env) (M : List PyStr) :
    (env.sys_modules (S "bar") = some M →
     env.get_similar_words (S "foo") M = [S "foo_bar", S "food"] →
     import_error_get_cause env c5_value c5_info () =
       .ok (c5_plural_cause, dictSet c5_info (S "suggest") c5_plural_suggest) ∧
     containsSub c5_plural_cause (S "foo_bar") = true ∧
     containsSub c5_plural_cause (S "food") = true ∧
     containsSub c5_plural_suggest (S "Did you mean one of the following") = true) ∧
    (env.sys_modules (S "bar") = some M →
     env.get_similar_words (S "foo") M = [S "foo_bar"] →
     import_error_get_cause env c5_value c5_info () =
       .ok (c5_singular_cause,
         dictSet c5_info (S "suggest") (S "Did you mean `foo_bar`?\n")) ∧
     containsSub (S "Did you mean `foo_bar`?\n") (S "Did you mean") = true) := by
  constructor
  · intro hmod hsim
    refine ⟨?_, by decide, by decide, by decide⟩
    have hred : import_error_get_cause env c5_value c5_info () =
        cannot_import_name_from env (S "foo") (S "bar") c5_info () true := rfl
    rw [hred, cannot_import_name_from_plural env (S "foo") (S "bar") c5_info () M
      (S "foo_bar") (S "food") [] rfl hmod hsim]
    rfl
  · intro hmod hsim
    refine ⟨?_, by decide⟩
    have hred : import_error_get_cause env c5_value c5_info () =
        cannot_import_name_from env (S "foo") (S "bar") c5_info () true := rfl
    rw [hred, cannot_import_name_from_singular env (S "foo") (S "bar") c5_info () M
      (S "foo_bar") rfl hmod hsim]
    rfl

/-- C5 witness: the theorem applied at environments with concrete module
tables and fuzzy results. -/
theorem c5_witness :
    import_error_get_cause c5_env_plural c5_value c5_info () =
      .ok (c5_plural_cause, dictSet c5_info (S "suggest") c5_plural_suggest) ∧
    import_error_get_cause c5_env_single c5_value c5_info () =
      .ok (c5_singular_cause,
        dictSet c5_info (S "suggest") (S "Did you mean `foo_bar`?\n")) :=
  ⟨((c5_import_fuzzy_phrasing c5_env_plural [S "foo_bar", S "food"]).1 rfl rfl).1,
   ((c5_import_fuzzy_phrasing c5_env_single [S "foo_bar", S "food"]).2 rfl rfl).1⟩

/-- C6.  For the syntax message `can't assign to literal` with line `5 = x`,
`analyze_message` identifies `5` as the literal and `x` as the identifier and
includes the swapped-assignment suggestion `x = 5`; when the right-hand text
is not a valid identifier the matcher appends only a newline, with no swap
suggestion. -/
theorem c6_assign_literal_scenario :
    (∀ (env : Env) (n : Nat) (sl : Option (List PyStr)) (o : Nat),
      analyze_message env (S "can't assign to literal") (S "5 = x") n sl o =
        .ok (some c6_expected) ∧
      containsSub c6_expected (S "    x = 5\n") = true) ∧
    (∀ (env : Env) (line : PyStr) (n : Nat) (sl : Option (List PyStr)) (o : Nat)
      (lit0 name0 : PyStr) (rest : List PyStr),
      splitOnChar '=' line = lit0 :: name0 :: rest →
      isIdentifier (pyStrip name0) = false →
      assign_to_literal env (S "can't assign to literal") line n sl o =
        .ok (some (assign_to_literal_main (pyStrip lit0) (pyStrip name0) ++ S "\n"))) := by
  constructor
  · intro env n sl o
    exact ⟨rfl, by decide⟩
  · intro env line n sl o lit0 name0 rest hsplit hid
    unfold assign_to_literal
    rw [if_pos (Or.inl rfl), hsplit]
    show PyRes.ok (some (assign_to_literal_main (pyStrip lit0) (pyStrip name0) ++
      (if isIdentifier (pyStrip name0) then
        S " Perhaps you meant to write:\n    " ++ pyStrip name0 ++ S " = " ++
          pyStrip lit0 ++ S "\n\n"
      else S "\n"))) = _
    rw [hid, if_neg Bool.false_ne_true]

/-- C6 witness: the matcher applied to the concrete line `5 = 2x` whose
right-hand side is not an identifier. -/
theorem c6_witness :
    splitOnChar '=' (S "5 = 2x") = [S "5 ", S " 2x"] ∧
    isIdentifier (pyStrip (S " 2x")) = false ∧
    assign_to_literal trivialEnv (S "can't assign to literal") (S "5 = 2x") 0 none 0 =
      .ok (some (assign_to_literal_main (S "5") (S "2x") ++ S "\n")) :=
  ⟨by decide, by decide,
    c6_assign_literal_scenario.2 trivialEnv (S "5 = 2x") 0 none 0 (S "5 ") (S " 2x") []
      (by decide) (by decide)⟩

lemma splitOnChar_not_mem (sep : Char) : ∀ (l : PyStr), sep ∉ l → splitOnChar sep l = [l] := by
  intro l
  induction l with
  | nil => intro _; rfl
  | cons c cs ih =>
    intro h
    have hc : ¬ c = sep := fun hh => h (by rw [← hh]; exact List.mem_cons_self c cs)
    have hcs : sep ∉ cs := fun hh => h (List.mem_cons_of_mem c hh)
    show (if c = sep then [] :: splitOnChar sep cs
      else match splitOnChar sep cs with
        | [] => [[c]]
        | p :: ps => (c :: p) :: ps) = [c :: cs]
    rw [if_neg hc, ih hcs]

lemma assign_to_literal_no_eq (env : Env) {message : PyStr} (line : PyStr) (n : Nat)
    (sl : Option (List PyStr)) (o : Nat)
    (hm : message = S "can't assign to literal" ∨ message = S "cannot assign to literal")
    (h : '=' ∉ line) :
    assign_to_literal env message line n sl o = .err .indexError := by
  unfold assign_to_literal
  rw [if_pos hm, splitOnChar_not_mem '=' line h]

/-- C10.  When the message matches `assign_to_literal`'s trigger but the line
holds no `=`, indexing `line.split(\"=\")[1]` raises IndexError, which
`analyze_message` propagates; a non-absent explanation is produced only when
the line contains at least one `=`. -/
theorem c10_assign_literal_no_equals :
    (∀ (env : Env) (line : PyStr) (n : Nat) (sl : Option (List PyStr)) (o : Nat),
      '=' ∉ line →
      analyze_message env (S "can't assign to literal") line n sl o = .err .indexError ∧
      analyze_message env (S "cannot assign to literal") line n sl o = .err .indexError) ∧
    (∀ (env : Env) (m line : PyStr) (n : Nat) (sl : Option (List PyStr)) (o : Nat)
      (e : PyStr),
      assign_to_literal env m line n sl o = .ok (some e) → '=' ∈ line) := by
  constructor
  · intro env line n sl o h
    constructor
    · unfold analyze_message MESSAGE_ANALYZERS
      simp only [analyzeGo]
      rw [assign_to_literal_no_eq env line n sl o (Or.inl rfl) h]
      rfl
    · unfold analyze_message MESSAGE_ANALYZERS
      simp only [analyzeGo]
      rw [assign_to_literal_no_eq env line n sl o (Or.inr rfl) h]
      rfl
  · intro env m line n sl o e hok
    by_contra hne
    have hs := splitOnChar_not_mem '=' line hne
    unfold assign_to_literal at hok
    by_cases hg : (m = S "can't assign to literal" ∨ m = S "cannot assign to literal")
    · rw [if_pos hg, hs] at hok
      injection hok
    · rw [if_neg hg] at hok
      injection hok with h2
      injection h2

/-- C10 witness: the theorem applied to the line `x`, which holds no `=`. -/
theorem c10_witness :
    ('=' ∉ S "x") ∧
    analyze_message trivialEnv (S "can't assign to literal") (S "x") 0 none 0 =
      .err .indexError :=
  ⟨by decide,
    (c10_assign_literal_no_equals.1 trivialEnv (S "x") 0 none 0 (by decide)).1⟩
